import Mathlib

/-!
Shallow embedding of the `translator` package (files `translator/data.py` and
`translator/training.py`) and proofs about its data-processing and
orchestration behaviour.

Conventions:
* Python machine integers are modelled as `Nat`/`Int` (token ids are
  non-negative, the ignore sentinel is `(-100 : Int)`).
* Fallible Python code is modelled with `Except PyError`; the distinct
  Python exceptions raised at distinct program points get distinct
  constructors so that theorems can tell them apart.
* External library calls (HuggingFace `datasets`, `transformers`) are
  modelled by oracle functions carried in environment records, except where
  their documented semantics at the concrete call site is fixed (padding to
  `max_length` with truncation), which is embedded directly.
-/

/-- A raw bilingual row of the hub dataset: columns `en` and `vi`
(`data.py` hub branch removes exactly these columns). -/
structure Row where
  en : String
  vi : String
deriving DecidableEq, Repr

/-- A directional example with columns `inputs` and `targets`
(the columns removed by `Processor.process_fn`'s map call). -/
structure Example where
  inputs : String
  targets : String
deriving DecidableEq, Repr

/-- Model of the HuggingFace tokenizer as used by `Processor.tokenize_fn`:
an abstract raw encoding for ordinary text and for `text_target` text, the
padding token id, and the model maximum length used when no `max_length`
is passed. -/
structure Tokenizer where
  encode : String → List Nat
  encodeTarget : String → List Nat
  padTokenId : Nat
  modelMaxLength : Nat

/-- Result of one tokenizer call on a single string: `input_ids` and
`attention_mask`. -/
structure TokOut where
  input_ids : List Nat
  attention_mask : List Nat
deriving DecidableEq, Repr

/-- A tokenized example as produced by `Processor.group_fn`:
`input_ids`, `attention_mask` and the (pad-masked) `labels`. -/
structure TokExample where
  input_ids : List Nat
  attention_mask : List Nat
  labels : List Int
deriving DecidableEq, Repr

/-- HuggingFace tokenizer semantics for `padding="max_length",
truncation=True, max_length=len`: truncate the raw encoding to `len`
tokens and pad with the pad token id up to exactly `len`. -/
def padToMaxLength (ids : List Nat) (len pad : Nat) : List Nat :=
  ids.take len ++ List.replicate (len - ids.length) pad

/-- Configuration record for `DataTrainingArguments` (the `arguments`
module is not under `src/`; fields and their uses are taken from how
`data.py` reads them: `train_dir`, `data_name`, `dataset_name_train`,
`dataset_name_validation`, `valid_dir`, `max_train_samples`,
`max_valid_samples`, `streaming`, `dataset_num_workers`, `max_len`). -/
structure DataArgs where
  train_dir : Option String
  data_name : Option String
  dataset_name_train : Option String
  dataset_name_validation : Option String
  valid_dir : Option String
  max_train_samples : Option Nat
  max_valid_samples : Option Nat
  streaming : Bool
  dataset_num_workers : Nat
  max_len : Nat

/-- The `Processor` object state (`data.py` lines 14-19):
`__init__(self, tokenizer, batch_size, data_args, seed)` stores its four
required arguments. -/
structure Processor where
  tokenizer : Tokenizer
  batch_size : Nat
  data_args : DataArgs
  seed : Nat

/-- `Processor.tokenize_fn` (`data.py` lines 156-168): encodes `x` (with
`text_target` when `target` is true) using `padding="max_length"` and
`truncation=True`; `max_length` is `None if length is None else length`,
and `None` falls back to the tokenizer's model maximum length. The
source's `padding` parameter is never read (the body hardcodes
`padding="max_length"`), so it is omitted here. -/
def Processor.tokenize_fn (p : Processor) (x : String) (length : Option Nat)
    (target : Bool) : TokOut :=
  let raw := if target then p.tokenizer.encodeTarget x else p.tokenizer.encode x
  let L := length.getD p.tokenizer.modelMaxLength
  { input_ids := padToMaxLength raw L p.tokenizer.padTokenId,
    attention_mask := List.replicate (min raw.length L) 1 ++ List.replicate (L - raw.length) 0 }

/-- `Processor.group_fn` (`data.py` lines 138-154): tokenize `inputs` and
`targets` to `data_args.max_len`, then rewrite every label id equal to
`tokenizer.pad_token_id` to `-100` (the active, non-nested comprehension
at line 148, consistent with the non-batched `map` in `process_fn`). -/
def Processor.group_fn (p : Processor) (ex : Example) : TokExample :=
  let model_inputs := p.tokenize_fn ex.inputs (some p.data_args.max_len) false
  let labels := p.tokenize_fn ex.targets (some p.data_args.max_len) true
  let masked := labels.input_ids.map
    (fun l => if l = p.tokenizer.padTokenId then (-100 : Int) else (l : Int))
  { input_ids := model_inputs.input_ids,
    attention_mask := model_inputs.attention_mask,
    labels := masked }

/-- Observable dataset-library calls (and log lines) made by the
`Processor`, recorded as a trace: which loads, maps, selects,
interleavings and shuffles are issued, with which arguments. -/
inductive DataOp where
  /-- `load_from_disk(dataset_path)[key]` (`data.py` lines 100-107). -/
  | loadDisk (path key : String)
  /-- `logger.info` / `print` of `f'Error loading dataset {path}'`
  (`data.py` lines 111-112). -/
  | logged (path : String)
  /-- `load_dataset(name, split=..., streaming=...)` (`data.py` lines
  33-37 and 69-72; the validation call passes no `streaming` argument, so
  it records `false`). -/
  | loadHub (name split : String) (streaming : Bool)
  /-- `dataset.select(range(n))` (`data.py` lines 28 and 64). -/
  | select (n : Nat)
  /-- `train_data.take(n)` materialization (`data.py` line 39). -/
  | takeOp (n : Nat)
  /-- `multi_trans(dataset, a, b)` (`data.py` lines 41 and 73). -/
  | multiTransOp (a b : String)
  /-- `train_data.map(a_2_b, fn_kwargs={language_a, language_b},
  batched=True, remove_columns=['en','vi'])` (`data.py` lines 43-54). -/
  | mapA2B (language_a language_b : String)
  /-- `interleave_datasets(parts, seed=seed)` (`data.py` line 55). -/
  | interleaveOp (parts : Nat) (seed : Nat)
  /-- `shuffle(seed=seed, buffer_size=buffer)` (`data.py` line 56). -/
  | shuffleOp (seed : Nat) (buffer : Nat)
  /-- the tokenizing `dataset.map(lambda example: self.group_fn(example),
  [num_proc=...,] remove_columns=['inputs','targets'])` (`data.py` lines
  124-134); `numProc` is `none` exactly when no `num_proc` argument is
  passed. -/
  | mapTokenize (numProc : Option Nat) (removed : List String)
deriving DecidableEq, Repr

/-- Outcome of the external `datasets.load_from_disk` call: either the
call raises, or it returns a dataset dictionary keyed by split name. -/
inductive DiskResult where
  | raiseErr
  | found (splits : List (String × List Example))

/-- Python exceptions raised at the distinct program points of
`data.py` / `training.py` that the development distinguishes. -/
inductive PyError where
  /-- `ValueError(f'Not found {path} path.')` (`data.py` line 93). -/
  | notFoundPath (path : String)
  /-- `AttributeError`: `None.select` after a swallowed load failure
  (`data.py` lines 28 and 64 with `train_data`/`valid_data` = `None`). -/
  | attributeErrorSelect
  /-- `AttributeError`: `None.map` inside `process_fn` after a swallowed
  load failure (`data.py` lines 125 and 130 with `dataset` = `None`). -/
  | attributeErrorMap
  /-- `IndexError` from `select(range(n))` with `n` out of range
  (`data.py` lines 28 and 64). -/
  | indexErrorSelect
  /-- `ValueError('Output directory ... already exists and is not
  empty.')` (`training.py` lines 80-83). -/
  | outputDirNotEmpty
  /-- `ValueError('You are instantiating a new tokenizer from scratch
  ...')` (`training.py` lines 116-119). -/
  | tokenizerFromScratch
  /-- `TypeError`: `'mt' in model_args.model_name_or_path` with the name
  `None` (`training.py` line 133). -/
  | typeErrorModelNameNone
  /-- `raise NotImplemented` (`training.py` line 144); in Python 3
  raising the non-exception `NotImplemented` is itself a `TypeError`. -/
  | notImplementedModel
  /-- `AssertionError` from `assert not
  training_args.gradient_checkpointing` (`training.py` line 148). -/
  | gradCkptAssert
  /-- `NameError`: the local `target_modules` is referenced while
  unassigned when the `LoraConfig` arguments are evaluated
  (`training.py` line 171). -/
  | nameErrorTargetModules
  /-- `TypeError`: `Processor(tokenizer, per_device_train_batch_size,
  data_args)` (`training.py` line 190) passes three arguments where
  `Processor.__init__` (`data.py` line 15) declares four required
  parameters — `seed` is missing. -/
  | typeErrorProcessorSeed
  /-- `NameError`: the local `model` is referenced while unassigned when
  the trainer arguments are evaluated (`training.py` line 207). -/
  | nameErrorModel
  /-- `KeyError` on `processor["train"]` (`training.py` line 210). -/
  | keyErrorTrain
  /-- `KeyError` on `processor["validation"]` (`training.py` line 211). -/
  | keyErrorValidation
deriving DecidableEq, Repr

/-- Environment oracle for the external calls made by `Processor`:
filesystem existence, `load_from_disk`, `load_dataset` (hub contents per
dataset name and split), and the `datasets` library's
`interleave_datasets` and bounded-buffer `shuffle` (semantics abstract;
the trace records the arguments they are called with). -/
structure ProcEnv where
  pathExists : String → Bool
  disk : String → DiskResult
  hub : String → String → List Row
  interleaveFn : List (List Example) → Nat → List Example
  shuffleFn : List Example → Nat → Nat → List Example

/-- The dictionary returned by `Processor.__call__`: an optional `train`
entry and an optional `validation` entry. -/
structure DSDict where
  train : Option (List TokExample)
  validation : Option (List TokExample)
deriving DecidableEq, Repr

/-- Modelled from the spec: `a_2_b` lives in
`translator/features/finetune/utils.py`, which is not under `src/`. Per
the spec, directional augmentation of a bilingual row takes the
`language_a` field as source and the `language_b` field as target. -/
def a_2_b (language_a language_b : String) (r : Row) : Example :=
  { inputs := if language_a = "en" then r.en else r.vi,
    targets := if language_b = "en" then r.en else r.vi }

/-- Modelled from the spec: `multi_trans` lives in
`translator/features/finetune/utils.py`, which is not under `src/`. Per
the spec, it applies directional augmentation to every row, yielding
exactly two rows per input row: one translating `a`→`b` and one
translating `b`→`a`. -/
def multi_trans : List Row → String → String → List Example
  | [], _, _ => []
  | r :: rest, a, b => a_2_b a b r :: a_2_b b a r :: multi_trans rest a b

/-- `Processor.process_fn` (`data.py` lines 114-136): map `group_fn` over
the dataset, removing the raw columns; when `streaming` is set the map
call passes no `num_proc` argument, otherwise it passes
`num_proc=dataset_num_workers`. Returns the tokenized rows together with
the recorded map call. -/
def Processor.process_fn (p : Processor) (dataset : List Example) :
    List TokExample × DataOp :=
  if p.data_args.streaming then
    (dataset.map p.group_fn, .mapTokenize none ["inputs", "targets"])
  else
    (dataset.map p.group_fn,
      .mapTokenize (some p.data_args.dataset_num_workers) ["inputs", "targets"])

/-- `Processor.load_data` (`data.py` lines 78-112): raise `ValueError` at
once when the path does not exist; otherwise run
`load_from_disk(path)[key]` inside a bare `try`. Any failure there
(including a missing split key) is caught, logged, and swallowed, and the
function falls through returning `None` (modelled as `Option`). The
`streaming` branch at lines 100-107 runs the same call in both arms. -/
def Processor.load_data (env : ProcEnv) (data_path : String) (key : String) :
    Except PyError (Option (List Example)) × List DataOp :=
  if env.pathExists data_path = false then
    (.error (.notFoundPath data_path), [])
  else
    match env.disk data_path with
    | .raiseErr => (.ok none, [.loadDisk data_path key, .logged data_path])
    | .found splits =>
      match splits.lookup key with
      | none => (.ok none, [.loadDisk data_path key, .logged data_path])
      | some d => (.ok (some d), [.loadDisk data_path key])

/-- `dataset.select(range(n))` semantics (`datasets` library): the first
`n` rows, raising `IndexError` when the dataset has fewer than `n`. -/
def selectRange (d : List Example) (n : Nat) :
    Except PyError (List Example) :=
  if n ≤ d.length then .ok (d.take n) else .error .indexErrorSelect

/-- Train-split part of `Processor.__call__` (`data.py` lines 23-57):
local-path branch (guarded by `train_dir is not None and data_name is
None`), hub branch (guarded by `dataset_name_train is not None`), or no
train split. A swallowed load failure leaves `train_data = None`, and the
subsequent `.select` or `.map` attribute access raises
`AttributeError`. -/
def Processor.trainPart (p : Processor) (env : ProcEnv) :
    Except PyError (Option (List TokExample)) × List DataOp :=
  if p.data_args.train_dir.isSome && p.data_args.data_name.isNone then
    match Processor.load_data env (p.data_args.train_dir.getD "") "train" with
    | (.error e, ops) => (.error e, ops)
    | (.ok none, ops) =>
      match p.data_args.max_train_samples with
      | some _ => (.error .attributeErrorSelect, ops)
      | none => (.error .attributeErrorMap, ops)
    | (.ok (some d), ops) =>
      match p.data_args.max_train_samples with
      | some n =>
        match selectRange d n with
        | .error e => (.error e, ops ++ [.select n])
        | .ok d' =>
          (.ok (some (p.process_fn d').1), ops ++ [.select n, (p.process_fn d').2])
      | none =>
        (.ok (some (p.process_fn d).1), ops ++ [(p.process_fn d).2])
  else if p.data_args.dataset_name_train.isSome then
    let nm := p.data_args.dataset_name_train.getD ""
    let rows := env.hub nm "train"
    let ops0 := [DataOp.loadHub nm "train" p.data_args.streaming]
    match p.data_args.max_train_samples with
    | some n =>
      let aug := multi_trans (rows.take n) "en" "vi"
      (.ok (some (p.process_fn aug).1),
        ops0 ++ [.takeOp n, .multiTransOp "en" "vi", (p.process_fn aug).2])
    | none =>
      let en_2_vi := rows.map (a_2_b "en" "vi")
      let vi_2_en := rows.map (a_2_b "vi" "en")
      let shuffled := env.shuffleFn (env.interleaveFn [en_2_vi, vi_2_en] p.seed) p.seed 10000
      (.ok (some (p.process_fn shuffled).1),
        ops0 ++ [.mapA2B "en" "vi", .mapA2B "vi" "en",
          .interleaveOp 2 p.seed, .shuffleOp p.seed 10000, (p.process_fn shuffled).2])
  else (.ok none, [])

/-- Validation-split part of `Processor.__call__` (`data.py` lines
59-74): local-path branch (guarded by `valid_dir is not None`), hub
branch (guarded by `dataset_name_validation is not None`; the hub
validation load passes no `streaming` argument), or no validation
split. -/
def Processor.validPart (p : Processor) (env : ProcEnv) :
    Except PyError (Option (List TokExample)) × List DataOp :=
  if p.data_args.valid_dir.isSome then
    match Processor.load_data env (p.data_args.valid_dir.getD "") "validation" with
    | (.error e, ops) => (.error e, ops)
    | (.ok none, ops) =>
      match p.data_args.max_valid_samples with
      | some _ => (.error .attributeErrorSelect, ops)
      | none => (.error .attributeErrorMap, ops)
    | (.ok (some d), ops) =>
      match p.data_args.max_valid_samples with
      | some n =>
        match selectRange d n with
        | .error e => (.error e, ops ++ [.select n])
        | .ok d' =>
          (.ok (some (p.process_fn d').1), ops ++ [.select n, (p.process_fn d').2])
      | none =>
        (.ok (some (p.process_fn d).1), ops ++ [(p.process_fn d).2])
  else if p.data_args.dataset_name_validation.isSome then
    let nm := p.data_args.dataset_name_validation.getD ""
    let aug := multi_trans (env.hub nm "validation") "en" "vi"
    (.ok (some (p.process_fn aug).1),
      [.loadHub nm "validation" false, .multiTransOp "en" "vi", (p.process_fn aug).2])
  else (.ok none, [])

/-- `Processor.__call__` (`data.py` lines 21-76): build the `dataset`
dictionary from the train part and then the validation part, propagating
the first uncaught exception. -/
def Processor.call (p : Processor) (env : ProcEnv) :
    Except PyError DSDict × List DataOp :=
  match p.trainPart env with
  | (.error e, ops) => (.error e, ops)
  | (.ok tr, ops1) =>
    match p.validPart env with
    | (.error e, ops2) => (.error e, ops1 ++ ops2)
    | (.ok va, ops2) => (.ok { train := tr, validation := va }, ops1 ++ ops2)

/-- Character-list version of `p.isPrefixOf s`: does `p` begin `s`? -/
def beginsWith : List Char → List Char → Bool
  | [], _ => true
  | _ :: _, [] => false
  | p :: ps, c :: cs => p = c && beginsWith ps cs

/-- Does `pat` occur as a contiguous substring of `s`? -/
def containsSub (pat : List Char) : List Char → Bool
  | [] => beginsWith pat []
  | c :: cs => beginsWith pat (c :: cs) || containsSub pat cs

/-- Python's `pat in hay` on strings. -/
def strContainsSub (pat hay : String) : Bool :=
  containsSub pat.data hay.data

/-- Python truthiness of an `Optional[str]`: `None` and the empty string
are falsy. -/
def pyTruthyStr : Option String → Bool
  | none => false
  | some s => s != ""

/-- Observable milestones of `training.main`, recorded as a trace so that
"raises before X happens" claims are formal. -/
inductive Effect where
  /-- `set_seed(training_args.seed)` (`training.py` line 91). -/
  | seedSet
  /-- model config resolution completed (`training.py` lines 94-109). -/
  | configLoaded
  /-- tokenizer resolution completed (`training.py` lines 111-122). -/
  | tokenizerLoaded
  /-- base model loaded (`training.py` lines 135-142). -/
  | modelLoaded
  /-- `LoraConfig(...)` constructed (`training.py` lines 169-176). -/
  | loraConfigBuilt
  /-- `get_peft_model(base_model, lora_config)` ran
  (`training.py` line 183). -/
  | loraAttached
  /-- `Processor(...)` constructed (`training.py` line 190). -/
  | processorConstructed
  /-- trainer constructed (`training.py` lines 206-212). -/
  | trainerBuilt
  /-- `trainer.train()` ran (`training.py` line 220). -/
  | trainingRun
  /-- `trainer.model.save_pretrained()` ran (`training.py` line 223). -/
  | modelSaved
deriving DecidableEq, Repr

/-- The parsed argument groups of `training.main` (from
`ModelArguments`, `DataTrainingArguments`, `Seq2SeqTrainingArguments` and
`LoraArguments`; the `arguments` module is not under `src/`, fields are
taken from how `training.py` reads them). `lora_target_modules` models
the Python truthiness of `lora_args.target_modules` (line 158). -/
structure TrainConfig where
  do_train : Bool
  overwrite_output_dir : Bool
  gradient_checkpointing : Bool
  seed : Nat
  per_device_train_batch_size : Nat
  config_name : Option String
  model_name_or_path : Option String
  tokenizer_name : Option String
  quantize : Bool
  use_lora : Bool
  lora_target_modules : Bool
  att_blocks : Bool
  use_int8_training : Bool
  lora_r : Nat
  lora_alpha : Nat
  lora_bias : String
  data_args : DataArgs

/-- Filesystem/checkpoint oracle for `training.main`:
`os.path.isdir(output_dir)`, `os.listdir(output_dir)`, and the external
`get_last_checkpoint(output_dir)`. -/
structure MainEnv where
  outputDirIsDir : Bool
  outputDirListing : List String
  lastCheckpoint : Option String

/-- The PEFT task type passed to `LoraConfig`; `training.py` line 175
hard-codes `TaskType.SEQ_CLS`. -/
inductive PeftTaskType where
  | seqCls
  | seq2seqLM
deriving DecidableEq, Repr

/-- The `LoraConfig` built at `training.py` lines 169-176 (the
`lora_dropout` float is omitted from the model; no claim reads it). -/
structure LoraConfigRec where
  r : Nat
  target_modules : List String
  lora_alpha : Nat
  bias : String
  task_type : PeftTaskType
deriving DecidableEq, Repr

/-- `target_module_dict` (`training.py` line 151), `mT5` entry. -/
def targetModuleDictMT5 : List String :=
  ["q", "wi_1", "k", "wi_0", "v", "wo", "o", "lm_head"]

/-- `target_module_dict` (`training.py` line 152), `T5` entry. -/
def targetModuleDictT5 : List String :=
  ["v", "q", "k", "wi", "wo", "o", "lm_head"]

/-- `target_att_dict` (`training.py` line 155), `T5` entry. -/
def targetAttDictT5 : List String :=
  ["v", "q", "k", "o"]

/-- Resolution of the local `target_modules` at `training.py` lines
158-165: `none` means the assignment never ran and the variable is left
unassigned. Note that the Python condition `("mt5" or "flan-t5") in
model_args.model_name_or_path` evaluates `("mt5" or "flan-t5")` to the
truthy `"mt5"` first, so it tests only `"mt5" in name` — faithfully
embedded as such. -/
def resolveTargetModules (cfg : TrainConfig) (name : String) :
    Option (List String) :=
  if cfg.lora_target_modules then
    if cfg.att_blocks then some targetAttDictT5
    else if strContainsSub "mt5" name then some targetModuleDictMT5
    else if strContainsSub "t5" name then some targetModuleDictT5
    else none
  else none

/-- The LoRA section of `training.main` (lines 146-186). Returns the
binding state of the local Python variable `model`: `some` when
`get_peft_model` assigned it, `none` when the branch was skipped and the
variable stays unassigned. Referencing the unassigned `target_modules`
while evaluating the `LoraConfig` arguments raises `NameError` before
`LoraConfig` is constructed, so no `loraConfigBuilt` effect is
recorded. -/
def loraStep (cfg : TrainConfig) (name : String) :
    Except PyError (Option LoraConfigRec) × List Effect :=
  if cfg.use_lora then
    if cfg.gradient_checkpointing then (.error .gradCkptAssert, [])
    else
      match resolveTargetModules cfg name with
      | none => (.error .nameErrorTargetModules, [])
      | some tm =>
        let lora_config : LoraConfigRec :=
          { r := cfg.lora_r
            target_modules := tm
            lora_alpha := cfg.lora_alpha
            bias := cfg.lora_bias
            task_type := PeftTaskType.seqCls }
        (.ok (some lora_config), [Effect.loraConfigBuilt, Effect.loraAttached])
  else (.ok none, [])

/-- The required parameters of `Processor.__init__` after `self`
(`data.py` line 15). -/
def processorInitParams : List String :=
  ["tokenizer", "batch_size", "data_args", "seed"]

/-- The arguments actually passed at the `Processor(...)` call site
(`training.py` line 190). -/
def processorCallArgs : List String :=
  ["tokenizer", "training_args.per_device_train_batch_size", "data_args"]

/-- Evaluation of the trainer-construction call (`training.py` lines
206-212) given the binding state of `model` and the processor dictionary.
Python evaluates the keyword arguments left to right: `model` first
(`NameError` when unassigned), then `processor["train"]`, then
`processor["validation"]` (each a `KeyError` when the key is absent). -/
def trainerStep (model : Option LoraConfigRec) (processor : DSDict) :
    Except PyError Unit :=
  match model with
  | none => .error .nameErrorModel
  | some _ =>
    match processor.train with
    | none => .error .keyErrorTrain
    | some _ =>
      match processor.validation with
      | none => .error .keyErrorValidation
      | some _ => .ok ()

/-- `training.main` after the base model loaded (lines 146-223): run the
LoRA section, then construct the `Processor`. The construction at line
190 passes three arguments (`processorCallArgs`) where
`Processor.__init__` declares four required parameters
(`processorInitParams`), so Python raises `TypeError` there; nothing
after line 190 — dataset processing, trainer construction,
`trainer.train()`, `trainer.model.save_pretrained()` — is ever
reached. -/
def mainAfterModel (cfg : TrainConfig) (name : String) (effs : List Effect) :
    Except PyError Unit × List Effect :=
  match loraStep cfg name with
  | (.error e, le) => (.error e, effs ++ le)
  | (.ok _, le) => (.error .typeErrorProcessorSeed, effs ++ le)

/-- `training.main` lines 124-144: the quantization config is constructed
only under `quantize` (and only read under the same flag, so no error
path); line 133 evaluates `'mt' in model_args.model_name_or_path`, a
`TypeError` when the name is `None`; lines 135-144 load the base model
when the name is truthy and otherwise execute `raise NotImplemented`. -/
def mainAfterTokenizer (cfg : TrainConfig) (effs : List Effect) :
    Except PyError Unit × List Effect :=
  match cfg.model_name_or_path with
  | none => (.error .typeErrorModelNameNone, effs)
  | some name =>
    if name != "" then mainAfterModel cfg name (effs ++ [Effect.modelLoaded])
    else (.error .notImplementedModel, effs)

/-- `training.main` lines 91-122: `set_seed`, config resolution (external
hub loads modelled as succeeding), then tokenizer resolution — raising
when neither `tokenizer_name` nor `model_name_or_path` is truthy (the
unsupported from-scratch tokenizer request); lines 121-122 then mutate
the loaded tokenizer (`pad_token = eos_token`, right padding). -/
def mainAfterCkpt (cfg : TrainConfig) : Except PyError Unit × List Effect :=
  let effs := [Effect.seedSet, Effect.configLoaded]
  if pyTruthyStr cfg.tokenizer_name || pyTruthyStr cfg.model_name_or_path then
    mainAfterTokenizer cfg (effs ++ [Effect.tokenizerLoaded])
  else (.error .tokenizerFromScratch, effs)

/-- `training.main` (`training.py` lines 59-223), beginning at the
checkpoint detection of lines 75-88: when the output directory exists,
`do_train` is set and `overwrite_output_dir` is not, a missing checkpoint
together with a non-empty directory listing raises `ValueError`; a found
checkpoint merely logs and continues. Argument parsing (lines 60-66) is
the given `cfg`; logging setup (lines 68-73) is unobservable here.
(Named `trainingMain` because Lean reserves the name `main` for an
executable entry point.) -/
def trainingMain (cfg : TrainConfig) (env : MainEnv) :
    Except PyError Unit × List Effect :=
  if env.outputDirIsDir && cfg.do_train && !cfg.overwrite_output_dir then
    match env.lastCheckpoint with
    | none =>
      if 0 < env.outputDirListing.length then (.error .outputDirNotEmpty, [])
      else mainAfterCkpt cfg
    | some _ => mainAfterCkpt cfg
  else mainAfterCkpt cfg

deriving instance DecidableEq for Except

/-- A small concrete tokenizer for concrete evaluations: source text
encodes to `[5, 6]`, target text to `[7]`, pad id `0`, model max 8. -/
def exampleTokenizer : Tokenizer :=
  ⟨fun _ => [5, 6], fun _ => [7], 0, 8⟩

/-- Concrete data arguments: local train directory, no validation
source, no sample caps, non-streaming, 4 workers, `max_len = 3`. -/
def dataArgsLocal : DataArgs :=
  { train_dir := some "data/train"
    data_name := none
    dataset_name_train := none
    dataset_name_validation := none
    valid_dir := none
    max_train_samples := none
    max_valid_samples := none
    streaming := false
    dataset_num_workers := 4
    max_len := 3 }

/-- Concrete processor over the local-path data arguments. -/
def procLocal : Processor :=
  ⟨exampleTokenizer, 4, dataArgsLocal, 0⟩

/-- Concrete processor environment: every path except `"missing"`
exists, every `load_from_disk` call raises, the hub is empty,
interleaving concatenates and shuffling is the identity. -/
def procEnvRaise : ProcEnv :=
  { pathExists := fun s => s != "missing"
    disk := fun _ => .raiseErr
    hub := fun _ _ => []
    interleaveFn := fun parts _ => parts.foldr (· ++ ·) []
    shuffleFn := fun d _ _ => d }

/-- Concrete data arguments for the hub branch with a sample cap of 2. -/
def dataArgsHubCapped : DataArgs :=
  { train_dir := none
    data_name := none
    dataset_name_train := some "hub/envi"
    dataset_name_validation := none
    valid_dir := none
    max_train_samples := some 2
    max_valid_samples := none
    streaming := false
    dataset_num_workers := 4
    max_len := 3 }

/-- Concrete processor over the capped hub data arguments, seed 7. -/
def procHub : Processor :=
  ⟨exampleTokenizer, 4, dataArgsHubCapped, 7⟩

/-- Concrete processor environment whose hub holds three bilingual
rows. -/
def procEnvHub : ProcEnv :=
  { pathExists := fun _ => true
    disk := fun _ => .raiseErr
    hub := fun _ _ => [⟨"a1", "b1"⟩, ⟨"a2", "b2"⟩, ⟨"a3", "b3"⟩]
    interleaveFn := fun parts _ => parts.foldr (· ++ ·) []
    shuffleFn := fun d _ _ => d }

/-- Concrete streaming-mode processor (same data arguments as
`dataArgsLocal` but with `streaming = true`). -/
def procStream : Processor :=
  ⟨exampleTokenizer, 4, { dataArgsLocal with streaming := true }, 0⟩

/-- A baseline orchestrator configuration: training requested, no
overwrite, a pretrained model name, LoRA disabled, no validation
source in the data arguments. -/
def baseCfg : TrainConfig :=
  { do_train := true
    overwrite_output_dir := false
    gradient_checkpointing := false
    seed := 42
    per_device_train_batch_size := 8
    config_name := none
    model_name_or_path := some "google/mt5-small"
    tokenizer_name := none
    quantize := false
    use_lora := false
    lora_target_modules := true
    att_blocks := false
    use_int8_training := false
    lora_r := 8
    lora_alpha := 16
    lora_bias := "none"
    data_args := dataArgsLocal }

/-- The baseline configuration with LoRA enabled and a model name of an
unknown architecture family (neither `mt5` nor `t5` occurs in it). -/
def bartCfg : TrainConfig :=
  { baseCfg with use_lora := true, model_name_or_path := some "facebook/bart-base" }

/-- Orchestrator environment of a fresh run: the output directory does
not exist. -/
def freshEnv : MainEnv := ⟨false, [], none⟩

/-- Orchestrator environment of an output directory that exists, is
non-empty, and contains a resumable checkpoint. -/
def checkpointEnv : MainEnv := ⟨true, ["checkpoint-500"], some "checkpoint-500"⟩

/-- Orchestrator environment of an output directory that exists, is
non-empty, and contains no checkpoint. -/
def staleEnv : MainEnv := ⟨true, ["stuff.bin"], none⟩

/-- Orchestrator environment of an output directory that exists but is
empty. -/
def emptyDirEnv : MainEnv := ⟨true, [], none⟩

/-- Helper: length of a pad-to-max-length encoding is exactly the target
length. -/
theorem padToMaxLength_length (ids : List Nat) (len pad : Nat) :
    (padToMaxLength ids len pad).length = len := by
  simp only [padToMaxLength, List.length_append, List.length_take, List.length_replicate]
  omega

/-- C1: every element of a `group_fn` label sequence differs from the
tokenizer's padding token id, and every position whose tokenized target
id was the padding id holds the ignore sentinel `-100` in the labels. -/
theorem labels_never_pad_and_padding_masked (p : Processor) (ex : Example)
    (i : Nat)
    (h : i < (p.tokenize_fn ex.targets (some p.data_args.max_len) true).input_ids.length) :
    (∀ l ∈ (p.group_fn ex).labels, l ≠ (p.tokenizer.padTokenId : Int)) ∧
    ((p.tokenize_fn ex.targets (some p.data_args.max_len) true).input_ids.getD i 0 =
        p.tokenizer.padTokenId →
      (p.group_fn ex).labels.getD i 0 = -100) := by
  constructor
  · intro l hl
    simp only [Processor.group_fn, List.mem_map] at hl
    rcases hl with ⟨x, _, rfl⟩
    by_cases hx : x = p.tokenizer.padTokenId
    · rw [if_pos hx]
      have : (0 : Int) ≤ (p.tokenizer.padTokenId : Int) := Int.natCast_nonneg _
      omega
    · rw [if_neg hx]
      exact_mod_cast hx
  · intro hpad
    have hlen : ((p.tokenize_fn ex.targets (some p.data_args.max_len) true).input_ids.map
        (fun l => if l = p.tokenizer.padTokenId then (-100 : Int) else (l : Int))).length =
        (p.tokenize_fn ex.targets (some p.data_args.max_len) true).input_ids.length := by
      simp
    simp only [Processor.group_fn]
    rw [List.getD_eq_getElem _ _ (by omega : i < _)]
    rw [List.getD_eq_getElem _ _ h] at hpad
    simp [List.getElem_map, hpad]

/-- C2: a `group_fn` label sequence has length exactly the configured
`max_len`, and the number of label tokens equals the number of input
tokens. -/
theorem label_length_eq_max_len (p : Processor) (ex : Example) :
    (p.group_fn ex).labels.length = p.data_args.max_len ∧
    (p.group_fn ex).input_ids.length = (p.group_fn ex).labels.length := by
  simp only [Processor.group_fn, Processor.tokenize_fn, List.length_map]
  simp [padToMaxLength_length]

/-- Witness for C1 at a concrete tokenizer and example: the target
encoding is `[7]`, padded to `[7, 0, 0]` (pad id `0`), and the masked
labels are `[7, -100, -100]`. -/
theorem labels_never_pad_and_padding_masked_witness :
    (1 < (Processor.tokenize_fn
        ⟨⟨fun _ => [5, 6], fun _ => [7], 0, 8⟩, 4, ⟨none, none, none, none, none, none, none, false, 1, 3⟩, 0⟩
        "b" (some 3) true).input_ids.length) ∧
    ((∀ l ∈ (Processor.group_fn
        ⟨⟨fun _ => [5, 6], fun _ => [7], 0, 8⟩, 4, ⟨none, none, none, none, none, none, none, false, 1, 3⟩, 0⟩
        ⟨"a", "b"⟩).labels, l ≠ ((0 : Nat) : Int)) ∧
      ((Processor.tokenize_fn
        ⟨⟨fun _ => [5, 6], fun _ => [7], 0, 8⟩, 4, ⟨none, none, none, none, none, none, none, false, 1, 3⟩, 0⟩
        "b" (some 3) true).input_ids.getD 1 0 = 0 →
        (Processor.group_fn
        ⟨⟨fun _ => [5, 6], fun _ => [7], 0, 8⟩, 4, ⟨none, none, none, none, none, none, none, false, 1, 3⟩, 0⟩
        ⟨"a", "b"⟩).labels.getD 1 0 = -100)) := by
  refine ⟨by decide, ?_⟩
  exact labels_never_pad_and_padding_masked
    ⟨⟨fun _ => [5, 6], fun _ => [7], 0, 8⟩, 4, ⟨none, none, none, none, none, none, none, false, 1, 3⟩, 0⟩
    ⟨"a", "b"⟩ 1 (by decide)

/-- Helper: the `Processor(...)` call site passes a different number of
arguments than `Processor.__init__` requires. -/
theorem processorCallArity :
    processorCallArgs.length ≠ processorInitParams.length := by
  decide

/-- Helper: directional augmentation yields exactly two rows per input
row. -/
theorem multi_trans_length (d : List Row) (a b : String) :
    (multi_trans d a b).length = 2 * d.length := by
  induction d with
  | nil => simp [multi_trans]
  | cons x xs ih =>
    simp only [multi_trans, List.length_cons, ih]
    omega

/-- Helper: for every input row, directional augmentation contains both
the `a`→`b` and the `b`→`a` example built from it. -/
theorem multi_trans_mem (d : List Row) (a b : String) (r : Row) (hr : r ∈ d) :
    a_2_b a b r ∈ multi_trans d a b ∧ a_2_b b a r ∈ multi_trans d a b := by
  induction d with
  | nil => cases hr
  | cons x xs ih =>
    rcases List.mem_cons.1 hr with h | h
    · subst h
      exact ⟨by simp [multi_trans], by simp [multi_trans]⟩
    · rcases ih h with ⟨h1, h2⟩
      exact ⟨by simp [multi_trans, h1], by simp [multi_trans, h2]⟩

/-- C4 counterexample: with an existing local train path whose disk load
raises, `Processor.__call__` does not continue with the train split
absent — it raises `AttributeError` (`None.map`) right after the
swallowed, logged failure, so the result is an exception, not a
dictionary. -/
theorem load_error_not_silent_cex :
    (Processor.call procLocal procEnvRaise).1 = .error .attributeErrorMap ∧
    DataOp.logged "data/train" ∈ (Processor.call procLocal procEnvRaise).2 := by
  decide

/-- C4 (amended): a missing local path raises `ValueError` immediately;
an existing path whose disk load raises is caught, logged, and swallowed
inside `load_data` (which returns `None`); but `__call__` then crashes
with `AttributeError` on the `None`, so the split is not cleanly absent
from the result. -/
theorem load_error_behavior (env : ProcEnv) (p : Processor)
    (pathA pathB key : String)
    (hA : env.pathExists pathA = false)
    (hB1 : env.pathExists pathB = true)
    (hB2 : env.disk pathB = .raiseErr)
    (hp1 : p.data_args.train_dir = some pathB)
    (hp2 : p.data_args.data_name = none)
    (hp3 : p.data_args.max_train_samples = none) :
    Processor.load_data env pathA key = (.error (.notFoundPath pathA), []) ∧
    Processor.load_data env pathB key =
      (.ok none, [.loadDisk pathB key, .logged pathB]) ∧
    (Processor.call p env).1 = .error .attributeErrorMap := by
  refine ⟨by simp [Processor.load_data, hA], by simp [Processor.load_data, hB1, hB2], ?_⟩
  simp [Processor.call, Processor.trainPart, Processor.load_data,
    hp1, hp2, hp3, hB1, hB2]

/-- Witness for C4's amended theorem at the concrete processor and
environment of the counterexample. -/
theorem load_error_behavior_witness :
    (procEnvRaise.pathExists "missing" = false ∧
     procEnvRaise.pathExists "data/train" = true ∧
     procLocal.data_args.train_dir = some "data/train") ∧
    (Processor.load_data procEnvRaise "missing" "train" =
        (.error (.notFoundPath "missing"), []) ∧
      Processor.load_data procEnvRaise "data/train" "train" =
        (.ok none, [.loadDisk "data/train" "train", .logged "data/train"]) ∧
      (Processor.call procLocal procEnvRaise).1 = .error .attributeErrorMap) := by
  refine ⟨⟨by decide, by decide, rfl⟩, ?_⟩
  exact load_error_behavior procEnvRaise procLocal "missing" "data/train" "train"
    (by decide) (by decide) rfl rfl rfl rfl

/-- C7: loading train data from a hub identifier. With a sample cap `n`
(and at least `n` rows available) exactly `n` rows are materialized and
directional augmentation yields `2 * n` examples containing, for each
row, its `en`→`vi` and its `vi`→`en` variant, with the recorded pipeline
`load_dataset; take n; multi_trans`. Without a cap, the recorded
pipeline maps the stream into the two directional variants, interleaves
them with the fixed seed, and shuffles with a 10000-row buffer. -/
theorem hub_train_pipeline (p : Processor) (env : ProcEnv) (nm : String)
    (h1 : p.data_args.train_dir = none)
    (h2 : p.data_args.dataset_name_train = some nm) :
    (∀ n, p.data_args.max_train_samples = some n →
      n ≤ (env.hub nm "train").length →
      ((env.hub nm "train").take n).length = n ∧
      (multi_trans ((env.hub nm "train").take n) "en" "vi").length = 2 * n ∧
      (∀ r ∈ (env.hub nm "train").take n,
        a_2_b "en" "vi" r ∈ multi_trans ((env.hub nm "train").take n) "en" "vi" ∧
        a_2_b "vi" "en" r ∈ multi_trans ((env.hub nm "train").take n) "en" "vi") ∧
      p.trainPart env =
        (.ok (some (p.process_fn (multi_trans ((env.hub nm "train").take n) "en" "vi")).1),
          [.loadHub nm "train" p.data_args.streaming, .takeOp n, .multiTransOp "en" "vi",
            (p.process_fn (multi_trans ((env.hub nm "train").take n) "en" "vi")).2])) ∧
    (p.data_args.max_train_samples = none →
      p.trainPart env =
        (.ok (some (p.process_fn (env.shuffleFn
            (env.interleaveFn [(env.hub nm "train").map (a_2_b "en" "vi"),
              (env.hub nm "train").map (a_2_b "vi" "en")] p.seed) p.seed 10000)).1),
          [.loadHub nm "train" p.data_args.streaming, .mapA2B "en" "vi", .mapA2B "vi" "en",
            .interleaveOp 2 p.seed, .shuffleOp p.seed 10000,
            (p.process_fn (env.shuffleFn
              (env.interleaveFn [(env.hub nm "train").map (a_2_b "en" "vi"),
                (env.hub nm "train").map (a_2_b "vi" "en")] p.seed) p.seed 10000)).2])) := by
  constructor
  · intro n hn hle
    refine ⟨by simp [List.length_take]; omega, ?_, ?_, ?_⟩
    · rw [multi_trans_length]
      simp [List.length_take]
      omega
    · intro r hr
      exact multi_trans_mem _ "en" "vi" r hr
    · simp [Processor.trainPart, h1, h2, hn]
  · intro hn
    simp [Processor.trainPart, h1, h2, hn]

/-- Witness for C7 at the concrete capped hub processor: cap 2 over a
3-row hub, checking the materialized count and the augmented length. -/
theorem hub_train_pipeline_witness :
    (procHub.data_args.train_dir = none ∧
     procHub.data_args.dataset_name_train = some "hub/envi" ∧
     procHub.data_args.max_train_samples = some 2 ∧
     2 ≤ (procEnvHub.hub "hub/envi" "train").length) ∧
    (((procEnvHub.hub "hub/envi" "train").take 2).length = 2 ∧
     (multi_trans ((procEnvHub.hub "hub/envi" "train").take 2) "en" "vi").length = 2 * 2) := by
  refine ⟨⟨rfl, rfl, rfl, by decide⟩, ?_⟩
  have h := (hub_train_pipeline procHub procEnvHub "hub/envi" rfl rfl).1 2 rfl (by decide)
  exact ⟨h.1, h.2.1⟩

/-- C8: the tokenizing map call receives `num_proc=dataset_num_workers`
exactly when streaming mode is off; in streaming mode no `num_proc`
argument is passed. -/
theorem num_workers_only_when_not_streaming (p : Processor) (d : List Example) :
    (p.data_args.streaming = true →
      (p.process_fn d).2 = .mapTokenize none ["inputs", "targets"]) ∧
    (p.data_args.streaming = false →
      (p.process_fn d).2 =
        .mapTokenize (some p.data_args.dataset_num_workers) ["inputs", "targets"]) := by
  constructor <;> intro h <;> simp [Processor.process_fn, h]

/-- Witness for C8 at the concrete streaming and non-streaming
processors. -/
theorem num_workers_only_when_not_streaming_witness :
    (procStream.data_args.streaming = true ∧
     procLocal.data_args.streaming = false) ∧
    ((procStream.process_fn []).2 = .mapTokenize none ["inputs", "targets"] ∧
     (procLocal.process_fn []).2 = .mapTokenize (some 4) ["inputs", "targets"]) :=
  ⟨⟨rfl, rfl⟩,
    ⟨(num_workers_only_when_not_streaming procStream []).1 rfl,
     (num_workers_only_when_not_streaming procLocal []).2 rfl⟩⟩

/-- C3: even with a valid configuration (acceptable output directory, a
pretrained model name so no from-scratch tokenizer request), `main`
never returns normally: it raises `TypeError` at the
`Processor(tokenizer, per_device_train_batch_size, data_args)` call,
whose `__init__` requires a fourth `seed` argument, so training never
runs and no model is ever persisted. -/
theorem main_never_completes (cfg : TrainConfig) (env : MainEnv) (name : String)
    (h1 : env.outputDirIsDir = false)
    (h2 : cfg.model_name_or_path = some name)
    (h3 : name ≠ "")
    (h4 : cfg.use_lora = false) :
    (trainingMain cfg env).1 = .error .typeErrorProcessorSeed ∧
    Effect.trainingRun ∉ (trainingMain cfg env).2 ∧
    Effect.modelSaved ∉ (trainingMain cfg env).2 := by
  have key : trainingMain cfg env =
      (.error .typeErrorProcessorSeed,
        [Effect.seedSet, Effect.configLoaded, Effect.tokenizerLoaded, Effect.modelLoaded]) := by
    simp [trainingMain, h1, mainAfterCkpt, pyTruthyStr, h2, h3,
      mainAfterTokenizer, mainAfterModel, loraStep, h4]
  rw [key]
  exact ⟨rfl, by decide, by decide⟩

/-- Witness for C3 at the baseline configuration and a fresh output
directory. -/
theorem main_never_completes_witness :
    (freshEnv.outputDirIsDir = false ∧
     baseCfg.model_name_or_path = some "google/mt5-small" ∧
     "google/mt5-small" ≠ "" ∧ baseCfg.use_lora = false) ∧
    ((trainingMain baseCfg freshEnv).1 = .error .typeErrorProcessorSeed ∧
     Effect.trainingRun ∉ (trainingMain baseCfg freshEnv).2 ∧
     Effect.modelSaved ∉ (trainingMain baseCfg freshEnv).2) :=
  ⟨⟨rfl, rfl, by decide, rfl⟩,
    main_never_completes baseCfg freshEnv "google/mt5-small" rfl rfl (by decide) rfl⟩

/-- C5 counterexample: an output directory that is non-empty but
contains a resumable checkpoint, with `do_train` set and no overwrite
flag, does not raise the output-directory configuration error — `main`
logs, resumes, and proceeds (failing much later with the unrelated
`Processor` arity `TypeError`). -/
theorem nonempty_dir_with_checkpoint_cex :
    (trainingMain baseCfg checkpointEnv).1 = .error .typeErrorProcessorSeed ∧
    (trainingMain baseCfg checkpointEnv).1 ≠ .error .outputDirNotEmpty := by
  decide

/-- C5 (amended): the configuration error is raised, before anything
else runs (empty effect trace), exactly when `do_train` is set, the
output directory exists and is non-empty, no checkpoint is found inside
it, and `overwrite_output_dir` is not set; a directory containing a
checkpoint instead resumes. -/
theorem output_dir_check_raises (cfg : TrainConfig) (env : MainEnv)
    (h1 : env.outputDirIsDir = true)
    (h2 : cfg.do_train = true)
    (h3 : cfg.overwrite_output_dir = false)
    (h4 : env.lastCheckpoint = none)
    (h5 : env.outputDirListing ≠ []) :
    trainingMain cfg env = (.error .outputDirNotEmpty, []) := by
  have hpos : 0 < env.outputDirListing.length := List.length_pos.2 h5
  simp [trainingMain, h1, h2, h3, h4, hpos]

/-- Witness for C5's amended theorem: non-empty checkpoint-free output
directory with `do_train` on and overwrite off. -/
theorem output_dir_check_raises_witness :
    (staleEnv.outputDirIsDir = true ∧ baseCfg.do_train = true ∧
     baseCfg.overwrite_output_dir = false ∧ staleEnv.lastCheckpoint = none ∧
     staleEnv.outputDirListing ≠ []) ∧
    trainingMain baseCfg staleEnv = (.error .outputDirNotEmpty, []) :=
  ⟨⟨rfl, rfl, rfl, rfl, by decide⟩,
    output_dir_check_raises baseCfg staleEnv rfl rfl rfl rfl (by decide)⟩

/-- C6: requesting LoRA attachment for a model name of an unknown family
(no `"mt5"` and no `"t5"` substring, attention-blocks flag off) leaves
`target_modules` unresolved, and `main` raises (`NameError`, evaluating
the unassigned variable) before the `LoraConfig` is ever constructed —
no `loraConfigBuilt` effect appears in the trace. -/
theorem unknown_family_raises_before_lora_config (cfg : TrainConfig)
    (env : MainEnv) (name : String)
    (h1 : env.outputDirIsDir = false)
    (h2 : cfg.model_name_or_path = some name)
    (h3 : name ≠ "")
    (h4 : cfg.use_lora = true)
    (h5 : cfg.gradient_checkpointing = false)
    (h6 : cfg.lora_target_modules = true)
    (h7 : cfg.att_blocks = false)
    (h8 : strContainsSub "mt5" name = false)
    (h9 : strContainsSub "t5" name = false) :
    resolveTargetModules cfg name = none ∧
    (trainingMain cfg env).1 = .error .nameErrorTargetModules ∧
    Effect.loraConfigBuilt ∉ (trainingMain cfg env).2 := by
  have hres : resolveTargetModules cfg name = none := by
    simp [resolveTargetModules, h6, h7, h8, h9]
  have key : trainingMain cfg env =
      (.error .nameErrorTargetModules,
        [Effect.seedSet, Effect.configLoaded, Effect.tokenizerLoaded, Effect.modelLoaded]) := by
    simp [trainingMain, h1, mainAfterCkpt, pyTruthyStr, h2, h3,
      mainAfterTokenizer, mainAfterModel, loraStep, h4, h5, hres]
  rw [key]
  exact ⟨hres, rfl, by decide⟩

/-- Witness for C6 with the unknown-family model name
`"facebook/bart-base"`. -/
theorem unknown_family_raises_before_lora_config_witness :
    (strContainsSub "mt5" "facebook/bart-base" = false ∧
     strContainsSub "t5" "facebook/bart-base" = false ∧
     bartCfg.use_lora = true) ∧
    (resolveTargetModules bartCfg "facebook/bart-base" = none ∧
      (trainingMain bartCfg freshEnv).1 = .error .nameErrorTargetModules ∧
      Effect.loraConfigBuilt ∉ (trainingMain bartCfg freshEnv).2) :=
  ⟨⟨by decide, by decide, rfl⟩,
    unknown_family_raises_before_lora_config bartCfg freshEnv "facebook/bart-base"
      rfl rfl (by decide) rfl rfl rfl rfl (by decide) (by decide)⟩

/-- C9 counterexample: with no validation source configured (so the
returned dictionary would lack `'validation'`), `main` does not fail
with a lookup error — it fails earlier, with the `Processor` arity
`TypeError`, before the trainer-construction lookups are ever
evaluated. -/
theorem missing_validation_cex :
    baseCfg.data_args.valid_dir = none ∧
    baseCfg.data_args.dataset_name_validation = none ∧
    (trainingMain baseCfg freshEnv).1 = .error .typeErrorProcessorSeed ∧
    (trainingMain baseCfg freshEnv).1 ≠ .error .keyErrorValidation := by
  decide

/-- C9 (amended): the trainer construction does index `'validation'`
unconditionally — evaluated with a model binding and a dictionary whose
validation entry is absent it raises `KeyError` — and `Processor.__call__`
with no validation source indeed returns a dictionary without the
validation split; but in the current code every run raises the
`Processor` arity `TypeError` first, so the lookup error is unreachable,
and `main` still fails before any training starts. -/
theorem validation_required_amended (cfg : TrainConfig) (env : MainEnv)
    (name : String) (m : LoraConfigRec) (ds : DSDict)
    (p : Processor) (penv : ProcEnv)
    (h1 : env.outputDirIsDir = false)
    (h2 : cfg.model_name_or_path = some name)
    (h3 : name ≠ "")
    (h4 : cfg.use_lora = false)
    (_h5 : cfg.data_args.valid_dir = none)
    (_h6 : cfg.data_args.dataset_name_validation = none)
    (h7 : ds.validation = none)
    (h8 : ds.train.isSome = true)
    (h9 : p.data_args.valid_dir = none)
    (h10 : p.data_args.dataset_name_validation = none) :
    trainerStep (some m) ds = .error .keyErrorValidation ∧
    p.validPart penv = (.ok none, []) ∧
    (trainingMain cfg env).1 = .error .typeErrorProcessorSeed ∧
    Effect.trainerBuilt ∉ (trainingMain cfg env).2 ∧
    Effect.trainingRun ∉ (trainingMain cfg env).2 := by
  have hstep : trainerStep (some m) ds = .error .keyErrorValidation := by
    rcases Option.isSome_iff_exists.1 h8 with ⟨t, ht⟩
    simp [trainerStep, ht, h7]
  have hvalid : p.validPart penv = (.ok none, []) := by
    simp [Processor.validPart, h9, h10]
  have key : trainingMain cfg env =
      (.error .typeErrorProcessorSeed,
        [Effect.seedSet, Effect.configLoaded, Effect.tokenizerLoaded, Effect.modelLoaded]) := by
    simp [trainingMain, h1, mainAfterCkpt, pyTruthyStr, h2, h3,
      mainAfterTokenizer, mainAfterModel, loraStep, h4]
  rw [key]
  exact ⟨hstep, hvalid, rfl, by decide, by decide⟩

/-- Witness for C9's amended theorem at the baseline configuration, a
one-entry train-only dictionary, and the local-path processor. -/
theorem validation_required_amended_witness :
    (baseCfg.data_args.valid_dir = none ∧
     (⟨some [], none⟩ : DSDict).validation = none ∧
     (⟨some [], none⟩ : DSDict).train.isSome = true ∧
     procLocal.data_args.valid_dir = none) ∧
    (trainerStep (some ⟨8, targetModuleDictT5, 16, "none", .seqCls⟩) ⟨some [], none⟩ =
        .error .keyErrorValidation ∧
      procLocal.validPart procEnvRaise = (.ok none, []) ∧
      (trainingMain baseCfg freshEnv).1 = .error .typeErrorProcessorSeed ∧
      Effect.trainerBuilt ∉ (trainingMain baseCfg freshEnv).2 ∧
      Effect.trainingRun ∉ (trainingMain baseCfg freshEnv).2) :=
  ⟨⟨rfl, rfl, rfl, rfl⟩,
    validation_required_amended baseCfg freshEnv "google/mt5-small"
      ⟨8, targetModuleDictT5, 16, "none", .seqCls⟩ ⟨some [], none⟩
      procLocal procEnvRaise rfl rfl (by decide) rfl rfl rfl rfl rfl rfl rfl⟩

/-- C10 counterexample: with LoRA disabled and an otherwise valid
configuration, `main` does not raise the `NameError` on the unbound
`model` at trainer construction — it raises the `Processor` arity
`TypeError` earlier, at line 190, before trainer construction is
reached. -/
theorem lora_disabled_cex :
    baseCfg.use_lora = false ∧
    (trainingMain baseCfg emptyDirEnv).1 = .error .typeErrorProcessorSeed ∧
    (trainingMain baseCfg emptyDirEnv).1 ≠ .error .nameErrorModel := by
  decide

/-- C10 (amended): the `model` variable is assigned only inside the LoRA
branch (with LoRA off, the branch leaves the binding absent), and trainer
construction with the absent binding does raise `NameError`; but in the
current code every run — LoRA on or off — raises the `Processor` arity
`TypeError` at line 190 first, so trainer construction is never reached
and training proceeds in no configuration. -/
theorem model_unbound_amended (cfg : TrainConfig) (env : MainEnv)
    (name : String) (ds : DSDict)
    (h1 : env.outputDirIsDir = false)
    (h2 : cfg.model_name_or_path = some name)
    (h3 : name ≠ "")
    (h4 : cfg.use_lora = false) :
    loraStep cfg name = (.ok none, []) ∧
    trainerStep none ds = .error .nameErrorModel ∧
    (trainingMain cfg env).1 = .error .typeErrorProcessorSeed ∧
    Effect.trainerBuilt ∉ (trainingMain cfg env).2 := by
  have hlora : loraStep cfg name = (.ok none, []) := by
    simp [loraStep, h4]
  have key : trainingMain cfg env =
      (.error .typeErrorProcessorSeed,
        [Effect.seedSet, Effect.configLoaded, Effect.tokenizerLoaded, Effect.modelLoaded]) := by
    simp [trainingMain, h1, mainAfterCkpt, pyTruthyStr, h2, h3,
      mainAfterTokenizer, mainAfterModel, loraStep, h4]
  rw [key]
  exact ⟨hlora, rfl, rfl, by decide⟩

/-- Witness for C10's amended theorem at the baseline configuration and
an empty dictionary. -/
theorem model_unbound_amended_witness :
    (freshEnv.outputDirIsDir = false ∧ baseCfg.use_lora = false) ∧
    (loraStep baseCfg "google/mt5-small" = (.ok none, []) ∧
      trainerStep none ⟨none, none⟩ = .error .nameErrorModel ∧
      (trainingMain baseCfg freshEnv).1 = .error .typeErrorProcessorSeed ∧
      Effect.trainerBuilt ∉ (trainingMain baseCfg freshEnv).2) :=
  ⟨⟨rfl, rfl⟩,
    model_unbound_amended baseCfg freshEnv "google/mt5-small" ⟨none, none⟩
      rfl rfl (by decide) rfl⟩
